import Mathlib

/-!
Verification of the data-fetching layer of the Cheptoo personal-portfolio
frontend: the typed filter-to-query-string builders and error normaliser of
`src/services/api.ts`, the fetch-cycle state machine shared by every hook of
`src/hooks/usePortfolio.ts`, and the pure client-side filter/summary/render
pipeline of the Skills component.

Machine numbers of the source (proficiency levels, years of experience) are
modelled as `Nat`/`ℚ`; JavaScript's `Math.round` on the non-negative values
that occur here is `⌊q + 1/2⌋`, Mathlib's `round`. Optional JavaScript
fields are `Option`; JavaScript truthiness of a string-valued field is
"present and non-empty".
-/

namespace Portfolio

/-- A skill record as produced by the backend (`types/index.ts`, `Skill`).
`category` is one of seven tag strings; `proficiency_level` is on a 1–5
scale; `years_experience` is a non-negative number. -/
structure Skill where
  id : Nat
  name : String
  category : String
  category_display : String
  proficiency_level : Nat
  years_experience : ℚ
  is_featured : Bool
  deriving Repr, DecidableEq

/-- `SkillFilters` of `types/index.ts`: both fields optional. -/
structure SkillFilters where
  category : Option String
  featured : Option Bool
  deriving Repr, DecidableEq

/-- `ProjectFilters` of `types/index.ts`: all three fields optional. -/
structure ProjectFilters where
  featured : Option Bool
  published : Option Bool
  technology : Option String
  deriving Repr, DecidableEq

/-- JavaScript `Boolean.prototype.toString`, used by
`filters.featured.toString()` in `api.ts`. -/
def boolToString (b : Bool) : String :=
  if b then "true" else "false"

/-- JavaScript truthiness of an optionally-chained string field:
the chain is defined and the string non-empty. -/
def truthy : Option String → Bool
  | some s => s ≠ ""
  | none => false

/-- `skillsApi.getAll` (`api.ts` lines 66–79): the `URLSearchParams`
accumulated before the request, as an ordered list of key/value pairs.
`category` is appended under `if (filters?.category)` (truthiness);
`featured` under `if (filters?.featured !== undefined)` (definedness),
serialised with `toString()`. -/
def skillsGetAllQuery (filters : Option SkillFilters) : List (String × String) :=
  let params : List (String × String) := []
  let params :=
    if truthy (filters.bind SkillFilters.category) then
      params ++ [("category", (filters.bind SkillFilters.category).getD "")]
    else params
  let params :=
    match filters.bind SkillFilters.featured with
    | some b => params ++ [("featured", boolToString b)]
    | none => params
  params

/-- `projectsApi.getAll` (`api.ts` lines 105–122): `featured` and
`published` are appended under `!== undefined` checks, `technology` under a
truthiness check, in source order. -/
def projectsGetAllQuery (filters : Option ProjectFilters) : List (String × String) :=
  let params : List (String × String) := []
  let params :=
    match filters.bind ProjectFilters.featured with
    | some b => params ++ [("featured", boolToString b)]
    | none => params
  let params :=
    match filters.bind ProjectFilters.published with
    | some b => params ++ [("published", boolToString b)]
    | none => params
  let params :=
    if truthy (filters.bind ProjectFilters.technology) then
      params ++ [("technology", (filters.bind ProjectFilters.technology).getD "")]
    else params
  params

/-- `error.response?.data` of an axios-style error value: the structured
body the server may attach, with optional `message` and `detail` fields. -/
structure ErrorData where
  message : Option String
  detail : Option String
  deriving Repr, DecidableEq

/-- `error.response`: present on HTTP error responses, absent on transport
errors. -/
structure ErrorResponse where
  data : Option ErrorData
  deriving Repr, DecidableEq

/-- The thrown value reaching `handleApiError`: an optional `response`
chain and the error's own optional `message`. -/
structure ApiErrorValue where
  response : Option ErrorResponse
  message : Option String
  deriving Repr, DecidableEq

/-- The optional chain `error.response?.data?.message`. -/
def respDataMessage (e : ApiErrorValue) : Option String :=
  (e.response.bind ErrorResponse.data).bind ErrorData.message

/-- The optional chain `error.response?.data?.detail`. -/
def respDataDetail (e : ApiErrorValue) : Option String :=
  (e.response.bind ErrorResponse.data).bind ErrorData.detail

/-- `handleApiError` (`api.ts` lines 245–259): three truthiness-guarded
returns in priority order, then the literal fallback. -/
def handleApiError (e : ApiErrorValue) : String :=
  if truthy (respDataMessage e) then (respDataMessage e).getD ""
  else if truthy (respDataDetail e) then (respDataDetail e).getD ""
  else if truthy e.message then e.message.getD ""
  else "An unexpected error occurred"

/-- The per-hook state record `UseApiState<T>` of `usePortfolio.ts`. -/
structure UseApiState (α : Type) where
  data : Option α
  loading : Bool
  error : Option String
  deriving Repr, DecidableEq

/-- The `useState` initial value of every hook:
`{ data: null, loading: true, error: null }`. -/
def initialState (α : Type) : UseApiState α :=
  { data := none, loading := true, error := none }

/-- The three `setState` occurrences of a hook's fetch function, as events:
entering the `try` block, the `await` resolving, or the `catch` firing. -/
inductive FetchEvent (α : Type) where
  | start
  | success (d : α)
  | failure (e : ApiErrorValue)
  deriving Repr

/-- One `setState` application of `usePortfolio.ts`:
`start` is `setState(prev => ({ ...prev, loading: true, error: null }))`,
`success d` is `setState({ data: d, loading: false, error: null })`,
`failure e` is `setState({ data: null, loading: false, error: handleApiError(e) })`. -/
def hookStep (s : UseApiState α) : FetchEvent α → UseApiState α
  | .start => { s with loading := true, error := none }
  | .success d => { data := some d, loading := false, error := none }
  | .failure e => { data := none, loading := false, error := some (handleApiError e) }

/-- The state after a sequence of fetch events has been applied in order
(overlapping cycles interleave their events on the single state slice). -/
def runEvents (s : UseApiState α) (es : List (FetchEvent α)) : UseApiState α :=
  es.foldl hookStep s

/-- The service call's outcome for one fetch cycle: the awaited value or
the thrown error. -/
inductive FetchOutcome (α : Type) where
  | ok (d : α)
  | err (e : ApiErrorValue)
  deriving Repr

/-- One whole un-interleaved run of a hook's fetch function (`fetchSkills`
and its siblings) from state `s`: the pair of the state set on entering the
`try` block and the state set when the outcome arrives. The function body
has no guard: it runs the same cycle whatever `s` is. -/
def fetchCycle (s : UseApiState α) (outcome : FetchOutcome α) :
    UseApiState α × UseApiState α :=
  let s1 := hookStep s .start
  match outcome with
  | .ok d => (s1, hookStep s1 (.success d))
  | .err e => (s1, hookStep s1 (.failure e))

/-- The Skills component's `filteredSkills` memo (`Skills.tsx` lines
26–42) on a non-null skills list: category filter unless `'all'`, then
featured filter unless `showAll`. -/
def filteredSkills (skills : List Skill) (selectedCategory : String)
    (showAll : Bool) : List Skill :=
  let filtered := skills
  let filtered :=
    if selectedCategory ≠ "all" then
      filtered.filter (fun sk => sk.category = selectedCategory)
    else filtered
  let filtered :=
    if !showAll then filtered.filter (fun sk => sk.is_featured) else filtered
  filtered

/-- `filteredSkills` including the `if (!skills) return []` guard on the
hook's nullable `data`. -/
def filteredSkillsOfData (data : Option (List Skill)) (selectedCategory : String)
    (showAll : Bool) : List Skill :=
  match data with
  | none => []
  | some skills => filteredSkills skills selectedCategory showAll

/-- The animated progress-bar fill width of one card, in percent:
`` width: `${(level / 5) * 100}%` `` of `progressVariants`. -/
def progressWidthPct (level : Nat) : ℚ :=
  ((level : ℚ) / 5) * 100

/-- What the Skills grid renders per card of the filtered list: the
skill's name and its progress-bar width. -/
structure SkillCard where
  name : String
  widthPct : ℚ
  deriving Repr, DecidableEq

/-- The Skills grid (`Skills.tsx` lines 162–224): the empty-state branch
when the filtered list is empty, else one card per filtered record via
`filteredSkills.map`. -/
def renderSkillCards (data : Option (List Skill)) (selectedCategory : String)
    (showAll : Bool) : List SkillCard :=
  let filtered := filteredSkillsOfData data selectedCategory showAll
  if filtered.length = 0 then []
  else filtered.map (fun sk => { name := sk.name, widthPct := progressWidthPct sk.proficiency_level })

/-- JavaScript `Math.round` on the non-negative finite numbers occurring
in the summary: round half towards positive infinity, Mathlib's `round`. -/
def jsRound (q : ℚ) : ℤ := round q

/-- `skills.reduce((acc, skill) => acc + skill.proficiency_level, 0)`. -/
def sumLevels (skills : List Skill) : ℚ :=
  skills.foldl (fun acc sk => acc + (sk.proficiency_level : ℚ)) 0

/-- `skills.reduce((acc, skill) => acc + skill.years_experience, 0)`. -/
def sumYears (skills : List Skill) : ℚ :=
  skills.foldl (fun acc sk => acc + sk.years_experience) 0

/-- The four numbers of the Skills summary block. -/
structure SkillsSummary where
  totalSkills : Nat
  featuredSkills : Nat
  averageLevel : ℚ
  totalExperience : ℚ
  deriving Repr, DecidableEq

/-- The Skills summary (`Skills.tsx` lines 228–260): rendered only under
the `skills && skills.length > 0` guard; `none` means the block is absent
from the output. Average level is `Math.round(sum / length * 10) / 10`,
total experience `Math.round(sum * 10) / 10`. -/
def renderSummary (data : Option (List Skill)) : Option SkillsSummary :=
  match data with
  | none => none
  | some skills =>
    if skills.length > 0 then
      some { totalSkills := skills.length
             featuredSkills := (skills.filter (fun sk => sk.is_featured)).length
             averageLevel := (jsRound (sumLevels skills / skills.length * 10) : ℚ) / 10
             totalExperience := (jsRound (sumYears skills * 10) : ℚ) / 10 }
    else none

/-- A concrete skill record used to evaluate the definitions. -/
def demoSkill : Skill :=
  { id := 1, name := "Python", category := "programming",
    category_display := "Programming", proficiency_level := 5,
    years_experience := 3, is_featured := true }

/-- A second concrete skill record, neither featured nor in the
`programming` category. -/
def demoSkillTool : Skill :=
  { id := 2, name := "Git", category := "tool",
    category_display := "Tool", proficiency_level := 4,
    years_experience := 2, is_featured := false }

lemma truthy_getD_ne (o : Option String) (h : truthy o = true) : o.getD "" ≠ "" := by
  cases o with
  | none => simp [truthy] at h
  | some s => simpa [truthy] using h

/-- C1: the claim that `loading = true` implies `data = null` in every
reachable hook state is false: after a successful cycle, a refetch
re-enters the loading state while retaining the previous data. Counterexample
trace: mount, success, refetch. -/
theorem C1_counterexample :
    (runEvents (initialState (List Skill))
        [FetchEvent.start, FetchEvent.success [demoSkill], FetchEvent.start]).loading = true ∧
    (runEvents (initialState (List Skill))
        [FetchEvent.start, FetchEvent.success [demoSkill], FetchEvent.start]).data
      = some [demoSkill] := by
  constructor <;> rfl

/-- C1 (amended): the initial state is `{data: null, loading: true,
error: null}`, and a new fetch cycle sets `loading := true` and
`error := null` while RETAINING the previous `data`; consequently after a
successful cycle a consumer observes the previous result together with
`loading = true`, as the mount–success–refetch trace shows. -/
theorem C1_loading_retains_data (α : Type) (s : UseApiState α) (d : α) :
    initialState α = { data := none, loading := true, error := none } ∧
    hookStep s FetchEvent.start = { data := s.data, loading := true, error := none } ∧
    runEvents (initialState α) [FetchEvent.start, FetchEvent.success d, FetchEvent.start]
      = { data := some d, loading := true, error := none } := by
  refine ⟨rfl, rfl, rfl⟩

/-- C5: a failing fetch cycle from any state enters the loading state and
ends in `{data: null, loading: false, error: handleApiError e}`: the thrown
value is converted to a display string by the total function
`handleApiError` at the hook boundary rather than propagated. -/
theorem C5_failing_cycle (α : Type) (s : UseApiState α) (e : ApiErrorValue) :
    (fetchCycle s (FetchOutcome.err e)).1.loading = true ∧
    (fetchCycle s (FetchOutcome.err e)).1.error = none ∧
    (fetchCycle s (FetchOutcome.err e)).2
      = { data := none, loading := false, error := some (handleApiError e) } := by
  refine ⟨rfl, rfl, rfl⟩

/-- C6: a refetch from ANY state — in particular one already loading —
runs the same full cycle as from a fresh loading state (no no-op
short-circuit), re-enters the loading state, and when cycles overlap the
final state is decided entirely by the last event to resolve
(last-resolved-wins). -/
theorem C6_refetch_full_cycle (α : Type) (s : UseApiState α) (out : FetchOutcome α)
    (es : List (FetchEvent α)) (d : α) (e : ApiErrorValue) :
    (fetchCycle s out).1.loading = true ∧
    fetchCycle s out = fetchCycle { data := s.data, loading := true, error := none } out ∧
    runEvents s (es ++ [FetchEvent.success d])
      = { data := some d, loading := false, error := none } ∧
    runEvents s (es ++ [FetchEvent.failure e])
      = { data := none, loading := false, error := some (handleApiError e) } := by
  refine ⟨?_, ?_, ?_, ?_⟩
  · cases out <;> rfl
  · cases out <;> rfl
  · simp [runEvents, List.foldl_append, hookStep]
  · simp [runEvents, List.foldl_append, hookStep]

lemma skillsGetAllQuery_eq (sf : Option SkillFilters) :
    skillsGetAllQuery sf =
      (match sf.bind SkillFilters.category with
       | some c => if c = "" then [] else [("category", c)]
       | none => []) ++
      (match sf.bind SkillFilters.featured with
       | some b => [("featured", boolToString b)]
       | none => []) := by
  obtain _ | ⟨c?, f?⟩ := sf
  · rfl
  · obtain _ | c := c? <;> obtain _ | f := f? <;>
      simp [skillsGetAllQuery, truthy] <;>
      by_cases hc : c = "" <;> simp [hc]

lemma projectsGetAllQuery_eq (pf : Option ProjectFilters) :
    projectsGetAllQuery pf =
      (match pf.bind ProjectFilters.featured with
       | some b => [("featured", boolToString b)]
       | none => []) ++
      (match pf.bind ProjectFilters.published with
       | some b => [("published", boolToString b)]
       | none => []) ++
      (match pf.bind ProjectFilters.technology with
       | some t => if t = "" then [] else [("technology", t)]
       | none => []) := by
  obtain _ | ⟨f?, p?, t?⟩ := pf
  · rfl
  · obtain _ | f := f? <;> obtain _ | p := p? <;> obtain _ | t := t? <;>
      simp [projectsGetAllQuery, truthy] <;>
      by_cases ht : t = "" <;> simp [ht]

/-- C2: the claim that a filter key appears in the query iff its value is
defined is false for the string-valued filters: `skillsApi.getAll` guards
`category` by truthiness, so a defined empty-string category contributes no
key at all. -/
theorem C2_counterexample :
    ((some "" : Option String).isSome = true) ∧
    skillsGetAllQuery (some { category := some "", featured := none }) = [] ∧
    projectsGetAllQuery
        (some { featured := none, published := none, technology := some "" }) = [] := by
  refine ⟨rfl, rfl, rfl⟩

/-- C2 (amended): a boolean filter key (`featured`, `published`) appears
iff its value is defined and is serialised by `toString` as `"true"` or
`"false"`; a string filter key (`category`, `technology`) appears iff its
value is defined AND non-empty, serialised verbatim; an undefined filter
contributes no key. -/
theorem C2_query_serialisation (sf : Option SkillFilters) (pf : Option ProjectFilters) :
    (("category" ∈ (skillsGetAllQuery sf).map Prod.fst) ↔
      ∃ c, sf.bind SkillFilters.category = some c ∧ c ≠ "") ∧
    (("featured" ∈ (skillsGetAllQuery sf).map Prod.fst) ↔
      (sf.bind SkillFilters.featured).isSome = true) ∧
    (∀ c, sf.bind SkillFilters.category = some c → c ≠ "" →
      ("category", c) ∈ skillsGetAllQuery sf) ∧
    (∀ b, sf.bind SkillFilters.featured = some b →
      ("featured", boolToString b) ∈ skillsGetAllQuery sf) ∧
    (("featured" ∈ (projectsGetAllQuery pf).map Prod.fst) ↔
      (pf.bind ProjectFilters.featured).isSome = true) ∧
    (("published" ∈ (projectsGetAllQuery pf).map Prod.fst) ↔
      (pf.bind ProjectFilters.published).isSome = true) ∧
    (("technology" ∈ (projectsGetAllQuery pf).map Prod.fst) ↔
      ∃ t, pf.bind ProjectFilters.technology = some t ∧ t ≠ "") ∧
    (∀ b, boolToString b = "true" ∨ boolToString b = "false") := by
  rw [skillsGetAllQuery_eq sf, projectsGetAllQuery_eq pf]
  refine ⟨?_, ?_, ?_, ?_, ?_, ?_, ?_, ?_⟩
  · obtain _ | c := sf.bind SkillFilters.category <;>
      obtain _ | f := sf.bind SkillFilters.featured <;>
      simp [boolToString] <;> by_cases hc : c = "" <;> simp [hc] <;> cases f <;> simp
  · obtain _ | c := sf.bind SkillFilters.category <;>
      obtain _ | f := sf.bind SkillFilters.featured <;>
      simp [boolToString] <;> first
        | (by_cases hc : c = "" <;> simp [hc] <;> cases f <;> simp)
        | (cases f <;> simp)
  · rintro c hc hne
    rw [hc]
    obtain _ | f := sf.bind SkillFilters.featured <;> simp [hne]
  · rintro b hb
    rw [hb]
    obtain _ | c := sf.bind SkillFilters.category
    · simp
    · by_cases hc : c = "" <;> simp [hc]
  · obtain _ | f := pf.bind ProjectFilters.featured <;>
      obtain _ | p := pf.bind ProjectFilters.published <;>
      obtain _ | t := pf.bind ProjectFilters.technology <;>
      simp [boolToString] <;> first
        | (by_cases ht : t = "" <;> simp [ht] <;> cases p <;> simp)
        | (cases p <;> simp)
  · obtain _ | f := pf.bind ProjectFilters.featured <;>
      obtain _ | p := pf.bind ProjectFilters.published <;>
      obtain _ | t := pf.bind ProjectFilters.technology <;>
      simp [boolToString] <;> first
        | (by_cases ht : t = "" <;> simp [ht] <;> cases f <;> simp)
        | (cases f <;> simp)
  · obtain _ | f := pf.bind ProjectFilters.featured <;>
      obtain _ | p := pf.bind ProjectFilters.published <;>
      obtain _ | t := pf.bind ProjectFilters.technology <;>
      simp [boolToString] <;> by_cases ht : t = "" <;> simp [ht]
  · intro b
    cases b
    · exact Or.inr rfl
    · exact Or.inl rfl

/-- C2 (amended) at concrete filters: a present non-empty category and a
defined `featured := true` both appear, the boolean as `"true"`. -/
theorem C2_query_serialisation_witness :
    ("category", "py") ∈
      skillsGetAllQuery (some { category := some "py", featured := some true }) ∧
    ("featured", boolToString true) ∈
      skillsGetAllQuery (some { category := some "py", featured := some true }) := by
  refine ⟨?_, ?_⟩
  · exact (C2_query_serialisation (some { category := some "py", featured := some true })
      none).2.2.1 "py" rfl (by decide)
  · exact (C2_query_serialisation (some { category := some "py", featured := some true })
      none).2.2.2.1 true rfl

/-- C3: `handleApiError` follows the strict priority
`response.data.message`, then `response.data.detail`, then the error's own
`message`, then the literal fallback, where a field is present when its
optional chain yields a non-empty string; in particular a present
`message` wins over any `detail`. -/
theorem C3_handleApiError_priority (e : ApiErrorValue) (m d om : String) :
    (respDataMessage e = some m → m ≠ "" → handleApiError e = m) ∧
    (truthy (respDataMessage e) = false → respDataDetail e = some d → d ≠ "" →
      handleApiError e = d) ∧
    (truthy (respDataMessage e) = false → truthy (respDataDetail e) = false →
      e.message = some om → om ≠ "" → handleApiError e = om) ∧
    (truthy (respDataMessage e) = false → truthy (respDataDetail e) = false →
      truthy e.message = false → handleApiError e = "An unexpected error occurred") := by
  refine ⟨?_, ?_, ?_, ?_⟩
  · intro hm hne
    have ht : truthy (respDataMessage e) = true := by simp [truthy, hm, hne]
    simp [handleApiError, ht, hm]
    intro hfalse
    simp [truthy, hne] at hfalse
  · intro h1 hd hne
    have ht : truthy (respDataDetail e) = true := by simp [truthy, hd, hne]
    simp [handleApiError, h1, ht, hd]
    intro hfalse
    simp [truthy, hne] at hfalse
  · intro h1 h2 hom hne
    have ht : truthy e.message = true := by simp [truthy, hom, hne]
    simp [handleApiError, h1, h2, ht, hom]
    intro hfalse
    simp [truthy, hne] at hfalse
  · intro h1 h2 h3
    simp [handleApiError, h1, h2, h3]

/-- C3 at a concrete error value carrying both a server `message` and a
server `detail`: the `message` value is returned. -/
theorem C3_handleApiError_priority_witness :
    handleApiError
        { response := some { data := some { message := some "boom", detail := some "nope" } },
          message := some "transport" } = "boom" := by
  exact (C3_handleApiError_priority
    { response := some { data := some { message := some "boom", detail := some "nope" } },
      message := some "transport" } "boom" "nope" "transport").1 rfl (by decide)

/-- C10: `handleApiError` treats an empty-string field like an absent one:
whenever all three candidate fields are absent or empty it returns the
literal fallback, and its result is never the empty string. -/
theorem C10_empty_like_absent (e : ApiErrorValue) :
    ((respDataMessage e = none ∨ respDataMessage e = some "") →
     (respDataDetail e = none ∨ respDataDetail e = some "") →
     (e.message = none ∨ e.message = some "") →
     handleApiError e = "An unexpected error occurred") ∧
    handleApiError e ≠ "" := by
  constructor
  · rintro (h1 | h1) (h2 | h2) (h3 | h3) <;>
      simp [handleApiError, truthy, h1, h2, h3]
  · unfold handleApiError
    split
    · exact truthy_getD_ne _ (by assumption)
    · split
      · exact truthy_getD_ne _ (by assumption)
      · split
        · exact truthy_getD_ne _ (by assumption)
        · decide

/-- C10 at a concrete error value whose `response.data.message` is the
empty string, `response.data.detail` absent and own `message` empty: the
fallback is returned. -/
theorem C10_empty_like_absent_witness :
    handleApiError
        { response := some { data := some { message := some "", detail := none } },
          message := some "" } = "An unexpected error occurred" := by
  exact (C10_empty_like_absent
    { response := some { data := some { message := some "", detail := none } },
      message := some "" }).1 (Or.inr rfl) (Or.inl rfl) (Or.inr rfl)

/-- C4: the Skills filter is a pure function of list, category and
showAll: with category `"programming"` and `showAll = false` it returns
exactly the elements whose category is `"programming"` AND whose
`is_featured` is true (the two predicates conjoined, not exclusive modes),
and with category `"all"` and `showAll = true` it returns the input
unchanged. -/
theorem C4_filter_semantics (skills : List Skill) :
    filteredSkills skills "programming" false =
      skills.filter (fun sk => decide (sk.category = "programming") && sk.is_featured) ∧
    filteredSkills skills "all" true = skills := by
  constructor
  · simp only [filteredSkills]
    norm_num
    rw [if_neg (by decide : ¬("programming" : String) = "all")]
    rw [List.filter_filter]
    apply List.filter_congr
    intro a _
    exact Bool.and_comm _ _
  · simp [filteredSkills]

/-- C9: for every skills list, category and showAll flag, the filtered
list is a sublist of the input: every output element occurs in the input
unmodified, nothing is duplicated, and the input order is preserved. -/
theorem C9_filter_sublist (skills : List Skill) (cat : String) (showAll : Bool) :
    (filteredSkills skills cat showAll).Sublist skills := by
  unfold filteredSkills
  by_cases h1 : cat ≠ "all" <;> cases showAll <;> simp [h1] <;>
    first
      | exact (List.filter_sublist _).trans (List.filter_sublist _)
      | exact List.filter_sublist _
      | exact List.Sublist.refl _

/-- C7: the Skills summary block is rendered only under the non-emptiness
guard, so the average-level division never has a zero divisor: for absent
or empty data no summary value is produced at all, and for non-empty data
the divisor is non-zero and the average is the mean proficiency rounded to
one decimal place. -/
theorem C7_summary_guard (skills : List Skill) (h : skills ≠ []) :
    renderSummary none = none ∧
    renderSummary (some []) = none ∧
    ((skills.length : ℚ) ≠ 0 ∧
      ∃ su, renderSummary (some skills) = some su ∧
        su.averageLevel =
          (jsRound (sumLevels skills / (skills.length : ℚ) * 10) : ℚ) / 10 ∧
        su.totalExperience = (jsRound (sumYears skills * 10) : ℚ) / 10) := by
  have hpos : 0 < skills.length := List.length_pos.mpr h
  refine ⟨rfl, rfl, ?_, ?_⟩
  · exact Nat.cast_ne_zero.mpr (Nat.pos_iff_ne_zero.mp hpos)
  · exact ⟨{ totalSkills := skills.length
             featuredSkills := (skills.filter (fun sk => sk.is_featured)).length
             averageLevel := (jsRound (sumLevels skills / skills.length * 10) : ℚ) / 10
             totalExperience := (jsRound (sumYears skills * 10) : ℚ) / 10 },
           by simp [renderSummary, hpos], rfl, rfl⟩

/-- C7 at a concrete one-element list, and at the empty boundary. -/
theorem C7_summary_guard_witness :
    renderSummary (some []) = none ∧
    ((List.length [demoSkill] : ℚ) ≠ 0 ∧
      ∃ su, renderSummary (some [demoSkill]) = some su ∧
        su.averageLevel =
          (jsRound (sumLevels [demoSkill] / (List.length [demoSkill] : ℚ) * 10) : ℚ) / 10 ∧
        su.totalExperience = (jsRound (sumYears [demoSkill] * 10) : ℚ) / 10) := by
  have h := C7_summary_guard [demoSkill] (by decide)
  exact ⟨h.2.1, h.2.2⟩

/-- C8: the Skills grid renders exactly one card per record of the
filtered list, and each card's progress-bar fill width is
`(proficiency_level / 5) * 100` percent. -/
theorem C8_one_card_per_record (data : Option (List Skill)) (cat : String) (showAll : Bool) :
    renderSkillCards data cat showAll =
      (filteredSkillsOfData data cat showAll).map
        (fun sk => { name := sk.name
                     widthPct := ((sk.proficiency_level : ℚ) / 5) * 100 }) ∧
    (renderSkillCards data cat showAll).length
      = (filteredSkillsOfData data cat showAll).length := by
  have hmap : renderSkillCards data cat showAll =
      (filteredSkillsOfData data cat showAll).map
        (fun sk => { name := sk.name
                     widthPct := ((sk.proficiency_level : ℚ) / 5) * 100 }) := by
    unfold renderSkillCards progressWidthPct
    by_cases hlen : (filteredSkillsOfData data cat showAll).length = 0
    · rw [if_pos hlen]
      rw [List.length_eq_zero.mp hlen]
      rfl
    · rw [if_neg hlen]
  exact ⟨hmap, by rw [hmap, List.length_map]⟩

end Portfolio
